import Mathlib

/-!
Verification of `src/proxy_manager.py` (Scrapeclaw/instagram-scraper).

The Python module is shallowly embedded below: the `ProxyManager` class
becomes a structure, its methods become pure functions, the process
environment becomes a lookup function `Env`, the JSON configuration file
becomes an `Option Config` (with `none` modelling any open/parse failure),
and the randomness of `uuid.uuid4().hex` is threaded explicitly as a hex
string argument.  Python `int(...)` on a string, which can raise
`ValueError`, is modelled by an `Option Int`-valued parser, and the
factory `from_env` correspondingly returns `Except PyError ProxyManager`.
-/

namespace ProxySpec

/-! ### Python string primitives -/

/-- Whitespace recognised by Python's `str.strip` (ASCII part):
space, tab, newline, carriage return, vertical tab, form feed. -/
def isPySpace (c : Char) : Bool :=
  decide (c.toNat = 32 ∨ c.toNat = 9 ∨ c.toNat = 10 ∨ c.toNat = 13 ∨
    c.toNat = 11 ∨ c.toNat = 12)

/-- Python `str.lower` on a single character (ASCII range, which is all
the provider/country strings in this module use). -/
def pyCharLower (c : Char) : Char :=
  if 65 ≤ c.toNat ∧ c.toNat ≤ 90 then Char.ofNat (c.toNat + 32) else c

/-- Python `str.lower`. -/
def pyLower (s : String) : String :=
  ⟨s.data.map pyCharLower⟩

/-- Strip leading and trailing whitespace from a character list. -/
def stripL (l : List Char) : List Char :=
  ((l.dropWhile isPySpace).reverse.dropWhile isPySpace).reverse

/-- Python `str.strip` (no argument form). -/
def pyStrip (s : String) : String :=
  ⟨stripL s.data⟩

/-- Is `c` an ASCII decimal digit? -/
def isAsciiDigit (c : Char) : Bool :=
  decide (48 ≤ c.toNat ∧ c.toNat ≤ 57)

/-- No two adjacent underscores in the character list. -/
def noDoubleUnderscore : List Char → Bool
  | '_' :: '_' :: _ => false
  | _ :: rest => noDoubleUnderscore rest
  | [] => true

/-- A valid Python integer digit sequence: non-empty, all digits or
underscores, starting and ending with a digit, and underscores only
singly between digits. -/
def pyDigitsValid (l : List Char) : Bool :=
  !l.isEmpty &&
  l.all (fun c => isAsciiDigit c || c = '_') &&
  (match l.head? with | some c => isAsciiDigit c | none => false) &&
  (match l.getLast? with | some c => isAsciiDigit c | none => false) &&
  noDoubleUnderscore l

/-- Numeric value of a digit sequence (underscores skipped). -/
def pyDigitsNat (l : List Char) : Nat :=
  (l.filter isAsciiDigit).foldl (fun a c => a * 10 + (c.toNat - 48)) 0

/-- Python `int(s)` (base 10): strips whitespace, accepts an optional
sign and a digit sequence with single grouping underscores; `none`
models the `ValueError` raised on anything else. -/
def pyIntOpt (s : String) : Option Int :=
  match stripL s.data with
  | '-' :: rest => if pyDigitsValid rest then some (-(pyDigitsNat rest : Int)) else none
  | '+' :: rest => if pyDigitsValid rest then some ((pyDigitsNat rest : Int)) else none
  | l => if pyDigitsValid l then some ((pyDigitsNat l : Int)) else none

/-- Python `a or b` on strings (empty string is falsy). -/
def pyOrStr (a b : String) : String :=
  if a = "" then b else a

/-! ### The data model of `proxy_manager.py` -/

/-- The `PROVIDER_DEFAULTS` table: default host/port per provider. -/
def PROVIDER_DEFAULTS (p : String) : Option (String × Int) :=
  if p = "brightdata" then some ("brd.superproxy.io", 22225)
  else if p = "iproyal" then some ("proxy.iproyal.com", 12321)
  else if p = "stormproxies" then some ("rotating.stormproxies.com", 9999)
  else if p = "netnut" then some ("gw-resi.netnut.io", 5959)
  else none

/-- The state of a `ProxyManager` instance. -/
structure ProxyManager where
  provider : String
  host : String
  port : Int
  username : String
  password : String
  country : String
  sticky : Bool
  sticky_ttl_minutes : Int
  enabled : Bool
  session_id : String
deriving Repr, DecidableEq

/-- `ProxyManager._generate_session_id`: `uuid.uuid4().hex[:12]`.
The 32-character random hex string produced by `uuid.uuid4().hex` is an
explicit argument. -/
def generate_session_id (uuidHex : String) : String :=
  ⟨uuidHex.data.take 12⟩

/-- `ProxyManager.__init__`: normalizes `provider`/`country` with
`.lower().strip()`, resolves host/port from `PROVIDER_DEFAULTS` when the
supplied values are falsy (`""` / `0`), and generates a session id. -/
def ProxyManager.make (provider host : String) (port : Int)
    (username password country : String) (sticky : Bool)
    (sticky_ttl_minutes : Int) (enabled : Bool) (uuidHex : String) : ProxyManager :=
  let prov := pyStrip (pyLower provider)
  let defaults := PROVIDER_DEFAULTS prov
  { provider := prov
    host := if host = "" then (defaults.map Prod.fst).getD "" else host
    port := if port = 0 then (defaults.map Prod.snd).getD 0 else port
    username := username
    password := password
    country := pyStrip (pyLower country)
    sticky := sticky
    sticky_ttl_minutes := sticky_ttl_minutes
    enabled := enabled
    session_id := generate_session_id uuidHex }

/-- `ProxyManager.rotate_session`: replaces the session id with a fresh
one and returns it alongside the new state. -/
def ProxyManager.rotate_session (pm : ProxyManager) (uuidHex : String) :
    ProxyManager × String :=
  let sid := generate_session_id uuidHex
  ({ pm with session_id := sid }, sid)

/-- `ProxyManager._build_proxy_username`: the provider-specific username
format. -/
def ProxyManager.build_proxy_username (pm : ProxyManager) : String :=
  let base := pm.username
  if pm.provider = "brightdata" then
    String.intercalate "-"
      ([base] ++ (if pm.country = "" then [] else ["country-" ++ pm.country])
        ++ (if pm.sticky then ["session-" ++ pm.session_id] else []))
  else if pm.provider = "netnut" then
    String.intercalate "-"
      ([base] ++ (if pm.country = "" then [] else ["country-" ++ pm.country])
        ++ (if pm.sticky then ["session-" ++ pm.session_id] else []))
  else if pm.provider = "iproyal" then
    String.intercalate "_"
      ([base] ++ (if pm.country = "" then [] else ["country-" ++ pm.country])
        ++ (if pm.sticky then
              ["session-" ++ pm.session_id,
               "sessTime-" ++ toString pm.sticky_ttl_minutes]
            else []))
  else if pm.provider = "stormproxies" then
    base
  else
    base

/-- The record returned by `get_playwright_proxy`. -/
structure PlaywrightProxy where
  server : String
  username : String
  password : String
deriving Repr, DecidableEq

/-- `ProxyManager.get_playwright_proxy`. -/
def ProxyManager.get_playwright_proxy (pm : ProxyManager) :
    Option PlaywrightProxy :=
  if ¬pm.enabled ∨ pm.host = "" then none
  else some
    { server := "http://" ++ pm.host ++ ":" ++ toString pm.port
      username := pm.build_proxy_username
      password := pm.password }

/-- The mapping returned by `get_requests_proxy`: its `"http"` and
`"https"` entries. -/
structure RequestsProxy where
  http : String
  https : String
deriving Repr, DecidableEq

/-- `ProxyManager.get_requests_proxy`. -/
def ProxyManager.get_requests_proxy (pm : ProxyManager) :
    Option RequestsProxy :=
  if ¬pm.enabled ∨ pm.host = "" then none
  else
    let user := pm.build_proxy_username
    let url := "http://" ++ user ++ ":" ++ pm.password ++ "@" ++ pm.host
      ++ ":" ++ toString pm.port
    some { http := url, https := url }

/-! ### Environment and configuration factories -/

/-- The process environment: a (partial) map from variable names to
values. -/
def Env : Type := String → Option String

/-- `os.getenv name dflt`. -/
def getenv (env : Env) (name dflt : String) : String :=
  (env name).getD dflt

/-- The truthiness test used for boolean environment variables:
`value.lower() in ("true", "1", "yes")`. -/
def truthyEnv (s : String) : Bool :=
  pyLower s = "true" || pyLower s = "1" || pyLower s = "yes"

/-- The exceptions construction can raise. -/
inductive PyError where
  | valueError
deriving Repr, DecidableEq

/-- `ProxyManager.from_env`.  Note that `int(os.getenv("PROXY_PORT", "0"))`
and `int(os.getenv("PROXY_STICKY_TTL", "10"))` raise `ValueError` on
non-numeric values, modelled by the `Except.error` branch. -/
def ProxyManager.from_env (env : Env) (uuidHex : String) :
    Except PyError ProxyManager :=
  let enabled := truthyEnv (getenv env "PROXY_ENABLED" "false")
  if enabled = false then
    Except.ok (ProxyManager.make "brightdata" "" 0 "" "" "" true 10 false uuidHex)
  else
    match pyIntOpt (getenv env "PROXY_PORT" "0"),
        pyIntOpt (getenv env "PROXY_STICKY_TTL" "10") with
    | some port, some ttl =>
        Except.ok (ProxyManager.make (getenv env "PROXY_PROVIDER" "brightdata")
          (getenv env "PROXY_HOST" "") port
          (getenv env "PROXY_USERNAME" "") (getenv env "PROXY_PASSWORD" "")
          (getenv env "PROXY_COUNTRY" "")
          (truthyEnv (getenv env "PROXY_STICKY" "true")) ttl true uuidHex)
    | _, _ => Except.error PyError.valueError

/-- The `proxy` section of `config/scraper_config.json`; `none` fields
model absent keys (`dict.get` defaults). -/
structure ProxySection where
  enabled : Option Bool
  provider : Option String
  host : Option String
  port : Option Int
  username : Option String
  password : Option String
  country : Option String
  sticky : Option Bool
  sticky_ttl_minutes : Option Int
deriving Repr, DecidableEq

/-- A parsed configuration document: `cfg.get("proxy", {})`. -/
structure Config where
  proxy : Option ProxySection
deriving Repr, DecidableEq

/-- The empty `proxy` section (`{}`). -/
def emptySection : ProxySection :=
  ⟨none, none, none, none, none, none, none, none, none⟩

/-- `ProxyManager.from_config`.  `loaded = none` models any failure to
open or parse the configuration file, in which case the code logs a
warning and returns `cls.from_env()`. -/
def ProxyManager.from_config (loaded : Option Config) (env : Env)
    (uuidHex : String) : Except PyError ProxyManager :=
  match loaded with
  | none => ProxyManager.from_env env uuidHex
  | some cfg =>
    let pc := cfg.proxy.getD emptySection
    if (pc.enabled.getD false) = false then
      Except.ok (ProxyManager.make "brightdata" "" 0 "" "" "" true 10 false uuidHex)
    else
      Except.ok (ProxyManager.make (pc.provider.getD "brightdata")
        (pc.host.getD "") (pc.port.getD 0)
        (pyOrStr (pc.username.getD "") (getenv env "PROXY_USERNAME" ""))
        (pyOrStr (pc.password.getD "") (getenv env "PROXY_PASSWORD" ""))
        (pyOrStr (pc.country.getD "") (getenv env "PROXY_COUNTRY" ""))
        (pc.sticky.getD true) (pc.sticky_ttl_minutes.getD 10) true uuidHex)

/-- Folding an arbitrary sequence of `rotate_session` calls over an
instance (each element is the `uuid4().hex` drawn by that call). -/
def apply_rotations (pm : ProxyManager) (hexes : List String) : ProxyManager :=
  hexes.foldl (fun p h => (p.rotate_session h).1) pm

/-! ### Concrete fixtures used by witnesses and counterexamples -/

/-- A concrete 32-character value of `uuid.uuid4().hex`. -/
def hexW : String := "0123456789abcdef0123456789abcdef"

/-- The empty environment. -/
def envEmpty : Env := fun _ => none

/-- An environment with the proxy enabled and a non-numeric `PROXY_PORT`. -/
def envBad : Env := fun n =>
  if n = "PROXY_ENABLED" then some "true"
  else if n = "PROXY_PORT" then some "abc"
  else none

/-- A disabled instance that nevertheless carries a host and credentials. -/
def pmDisabledW : ProxyManager :=
  ProxyManager.make "brightdata" "myhost" 99 "u" "p" "US" true 10 false hexW

/-- A stormproxies instance with country and sticky settings. -/
def pmStormW : ProxyManager :=
  ProxyManager.make "stormproxies" "" 0 "u" "p" "us" true 10 true hexW

/-- An enabled brightdata instance. -/
def pmBrightW : ProxyManager :=
  ProxyManager.make "brightdata" "" 0 "u" "p" "us" true 10 true hexW

/-- A configuration document whose proxy section is disabled. -/
def cfgOffW : Config :=
  Config.mk (some { emptySection with enabled := some false })

/-- A second concrete `uuid.uuid4().hex` value, for rotation. -/
def hexW2 : String := "ffeeddccbbaa99887766554433221100"

/-- A netnut instance built with un-normalized country input, then rotated
once. -/
def pmRotW : ProxyManager :=
  apply_rotations
    (ProxyManager.make "netnut" "" 0 "u" "p" " DE " true 10 true hexW) [hexW2]

/-! ### Character and list normalization lemmas -/

theorem toNat_ofNat_valid (n : Nat) (h : n < 55296) : (Char.ofNat n).toNat = n := by
  have hv : n.isValidChar := Or.inl h
  rw [Char.ofNat, dif_pos hv]
  simp [Char.ofNatAux, Char.toNat, UInt32.toNat, BitVec.toNat_ofNatLt]

theorem pyCharLower_toNat (c : Char) :
    (pyCharLower c).toNat =
      if 65 ≤ c.toNat ∧ c.toNat ≤ 90 then c.toNat + 32 else c.toNat := by
  by_cases h : 65 ≤ c.toNat ∧ c.toNat ≤ 90
  · rw [if_pos h]
    unfold pyCharLower
    rw [if_pos h, toNat_ofNat_valid _ (by omega)]
  · rw [if_neg h]
    unfold pyCharLower
    rw [if_neg h]

theorem pyCharLower_idem (c : Char) :
    pyCharLower (pyCharLower c) = pyCharLower c := by
  have h1 : ¬(65 ≤ (pyCharLower c).toNat ∧ (pyCharLower c).toNat ≤ 90) := by
    rw [pyCharLower_toNat]
    split <;> omega
  have h2 : pyCharLower (pyCharLower c) =
      if 65 ≤ (pyCharLower c).toNat ∧ (pyCharLower c).toNat ≤ 90 then
        Char.ofNat ((pyCharLower c).toNat + 32)
      else pyCharLower c := rfl
  rw [h2, if_neg h1]

theorem isPySpace_pyCharLower (c : Char) :
    isPySpace (pyCharLower c) = isPySpace c := by
  unfold isPySpace
  rw [pyCharLower_toNat, decide_eq_decide]
  split <;> omega

theorem dropWhile_self {α : Type} (p : α → Bool) (l : List α) :
    (l.dropWhile p).dropWhile p = l.dropWhile p := by
  induction l with
  | nil => rfl
  | cons a t ih =>
    by_cases h : p a
    · rw [List.dropWhile_cons_of_pos h]
      exact ih
    · rw [List.dropWhile_cons_of_neg h, List.dropWhile_cons_of_neg h]

theorem head_false_of_dropWhile_fix {α : Type} {p : α → Bool} {c : α}
    {t : List α} (h : (c :: t).dropWhile p = c :: t) : p c = false := by
  by_cases hc : p c
  · rw [List.dropWhile_cons_of_pos hc] at h
    have hlen := congrArg List.length h
    have hle : (t.dropWhile p).length ≤ t.length :=
      (List.dropWhile_sublist p).length_le
    simp only [List.length_cons] at hlen
    omega
  · simp only [Bool.not_eq_true] at hc
    exact hc

theorem stripL_dropWhile (l : List Char) :
    (stripL l).dropWhile isPySpace = stripL l := by
  unfold stripL
  obtain ⟨t, ht⟩ := List.dropWhile_suffix (l := (l.dropWhile isPySpace).reverse) isPySpace
  cases hk : ((l.dropWhile isPySpace).reverse.dropWhile isPySpace).reverse with
  | nil => simp
  | cons c u =>
    have h2 : (l.dropWhile isPySpace).reverse.dropWhile isPySpace = (c :: u).reverse := by
      rw [← hk, List.reverse_reverse]
    rw [h2] at ht
    have h4 := congrArg List.reverse ht
    rw [List.reverse_append, List.reverse_reverse, List.reverse_reverse] at h4
    have h5 : l.dropWhile isPySpace = c :: (u ++ t.reverse) := by
      rw [← h4]
      simp
    have hfix : (l.dropWhile isPySpace).dropWhile isPySpace = l.dropWhile isPySpace :=
      dropWhile_self _ _
    rw [h5] at hfix
    have hc : isPySpace c = false := head_false_of_dropWhile_fix hfix
    rw [List.dropWhile_cons_of_neg (by simp [hc])]

theorem stripL_reverse_dropWhile (l : List Char) :
    (stripL l).reverse.dropWhile isPySpace = (stripL l).reverse := by
  unfold stripL
  rw [List.reverse_reverse]
  exact dropWhile_self _ _

theorem stripL_stripL (l : List Char) : stripL (stripL l) = stripL l := by
  have h1 := stripL_dropWhile l
  have h2 := stripL_reverse_dropWhile l
  rw [show stripL (stripL l) =
      (((stripL l).dropWhile isPySpace).reverse.dropWhile isPySpace).reverse from rfl,
    h1, h2, List.reverse_reverse]

theorem stripL_map_pyCharLower (l : List Char) :
    stripL (l.map pyCharLower) = (stripL l).map pyCharLower := by
  have hp : (isPySpace ∘ pyCharLower) = isPySpace := funext isPySpace_pyCharLower
  unfold stripL
  rw [List.dropWhile_map, hp, ← List.map_reverse, List.dropWhile_map, hp,
    ← List.map_reverse]

theorem map_pyCharLower_idem (l : List Char) :
    (l.map pyCharLower).map pyCharLower = l.map pyCharLower := by
  rw [List.map_map, show (pyCharLower ∘ pyCharLower) = pyCharLower from
    funext pyCharLower_idem]

theorem pyLower_norm (s : String) :
    pyLower (pyStrip (pyLower s)) = pyStrip (pyLower s) := by
  apply String.ext
  show (stripL (s.data.map pyCharLower)).map pyCharLower
      = stripL (s.data.map pyCharLower)
  rw [← stripL_map_pyCharLower, map_pyCharLower_idem]

theorem pyStrip_norm (s : String) :
    pyStrip (pyStrip (pyLower s)) = pyStrip (pyLower s) := by
  apply String.ext
  show stripL (stripL (s.data.map pyCharLower)) = stripL (s.data.map pyCharLower)
  exact stripL_stripL _

/-! ### Session id, rotation and provider-table lemmas -/

theorem length_generate_session_id (hex : String) (h : hex.length = 32) :
    (generate_session_id hex).length = 12 := by
  have hd : hex.data.length = 32 := by
    cases hex with
    | mk d => exact h
  show (hex.data.take 12).length = 12
  rw [List.length_take]
  omega

theorem apply_rotations_frame (pm : ProxyManager) (hexes : List String) :
    (apply_rotations pm hexes).provider = pm.provider ∧
    (apply_rotations pm hexes).host = pm.host ∧
    (apply_rotations pm hexes).port = pm.port ∧
    (apply_rotations pm hexes).username = pm.username ∧
    (apply_rotations pm hexes).password = pm.password ∧
    (apply_rotations pm hexes).country = pm.country ∧
    (apply_rotations pm hexes).sticky = pm.sticky ∧
    (apply_rotations pm hexes).sticky_ttl_minutes = pm.sticky_ttl_minutes ∧
    (apply_rotations pm hexes).enabled = pm.enabled := by
  induction hexes generalizing pm with
  | nil => exact ⟨rfl, rfl, rfl, rfl, rfl, rfl, rfl, rfl, rfl⟩
  | cons h t ih => exact ih ((pm.rotate_session h).1)

theorem apply_rotations_session (hexes : List String) :
    ∀ pm : ProxyManager, (∀ h ∈ hexes, String.length h = 32) →
      pm.session_id.length = 12 →
      (apply_rotations pm hexes).session_id.length = 12 := by
  induction hexes with
  | nil =>
    intro pm _ hpm
    exact hpm
  | cons h t ih =>
    intro pm hall hpm
    apply ih
    · intro x hx
      exact hall x (List.mem_cons_of_mem _ hx)
    · show (generate_session_id h).length = 12
      exact length_generate_session_id h (hall h (List.mem_cons_self _ _))

theorem PROVIDER_DEFAULTS_host_ne (p : String)
    (h : ((PROVIDER_DEFAULTS p).map Prod.fst).getD "" = "") :
    PROVIDER_DEFAULTS p = none := by
  revert h
  unfold PROVIDER_DEFAULTS
  split_ifs <;> intro h
  · exact absurd h (by decide)
  · exact absurd h (by decide)
  · exact absurd h (by decide)
  · exact absurd h (by decide)
  · rfl

theorem PROVIDER_DEFAULTS_port_ne (p : String)
    (h : ((PROVIDER_DEFAULTS p).map Prod.snd).getD 0 = 0) :
    PROVIDER_DEFAULTS p = none := by
  revert h
  unfold PROVIDER_DEFAULTS
  split_ifs <;> intro h
  · exact absurd h (by decide)
  · exact absurd h (by decide)
  · exact absurd h (by decide)
  · exact absurd h (by decide)
  · rfl

/-! ### Username-format lemmas -/

theorem intercalate_one (s a : String) :
    String.intercalate s [a] = a := rfl

theorem intercalate_two (s a b : String) :
    String.intercalate s [a, b] = a ++ s ++ b := rfl

theorem intercalate_three (s a b c : String) :
    String.intercalate s [a, b, c] = a ++ s ++ b ++ s ++ c := rfl

theorem intercalate_four (s a b c d : String) :
    String.intercalate s [a, b, c, d] = a ++ s ++ b ++ s ++ c ++ s ++ d := rfl

theorem build_username_dash (pm : ProxyManager)
    (h : pm.provider = "brightdata" ∨ pm.provider = "netnut") :
    pm.build_proxy_username =
      pm.username ++ (if pm.country = "" then "" else "-country-" ++ pm.country)
        ++ (if pm.sticky then "-session-" ++ pm.session_id else "") := by
  unfold ProxyManager.build_proxy_username
  rcases h with h | h <;> rw [h] <;>
    by_cases hc : pm.country = "" <;> by_cases hs : pm.sticky = true <;>
    simp [hc, hs] <;>
    first
    | rfl
    | (rw [intercalate_three]
       apply String.ext
       simp [String.data_append, List.append_assoc])
    | (rw [intercalate_two]
       apply String.ext
       simp [String.data_append, List.append_assoc])

theorem build_username_iproyal (pm : ProxyManager)
    (h : pm.provider = "iproyal") :
    pm.build_proxy_username =
      pm.username ++ (if pm.country = "" then "" else "_country-" ++ pm.country)
        ++ (if pm.sticky then
              "_session-" ++ pm.session_id ++ "_sessTime-"
                ++ toString pm.sticky_ttl_minutes
            else "") := by
  unfold ProxyManager.build_proxy_username
  rw [h]
  by_cases hc : pm.country = "" <;> by_cases hs : pm.sticky = true <;>
    simp [hc, hs] <;>
    first
    | rfl
    | (rw [intercalate_four]
       apply String.ext
       simp [String.data_append, List.append_assoc])
    | (rw [intercalate_three]
       apply String.ext
       simp [String.data_append, List.append_assoc])
    | (rw [intercalate_two]
       apply String.ext
       simp [String.data_append, List.append_assoc])

/-! ### Structural equations for the constructor and factories -/

theorem make_provider_eq (provider host : String) (port : Int)
    (u p c : String) (st : Bool) (ttl : Int) (en : Bool) (hex : String) :
    (ProxyManager.make provider host port u p c st ttl en hex).provider
      = pyStrip (pyLower provider) := rfl

theorem make_country_eq (provider host : String) (port : Int)
    (u p c : String) (st : Bool) (ttl : Int) (en : Bool) (hex : String) :
    (ProxyManager.make provider host port u p c st ttl en hex).country
      = pyStrip (pyLower c) := rfl

theorem make_host_eq (provider host : String) (port : Int)
    (u p c : String) (st : Bool) (ttl : Int) (en : Bool) (hex : String) :
    (ProxyManager.make provider host port u p c st ttl en hex).host
      = if host = "" then
          ((PROVIDER_DEFAULTS (pyStrip (pyLower provider))).map Prod.fst).getD ""
        else host := rfl

theorem make_port_eq (provider host : String) (port : Int)
    (u p c : String) (st : Bool) (ttl : Int) (en : Bool) (hex : String) :
    (ProxyManager.make provider host port u p c st ttl en hex).port
      = if port = 0 then
          ((PROVIDER_DEFAULTS (pyStrip (pyLower provider))).map Prod.snd).getD 0
        else port := rfl

theorem make_session_eq (provider host : String) (port : Int)
    (u p c : String) (st : Bool) (ttl : Int) (en : Bool) (hex : String) :
    (ProxyManager.make provider host port u p c st ttl en hex).session_id
      = generate_session_id hex := rfl

theorem from_env_eq (env : Env) (hex : String) :
    ProxyManager.from_env env hex =
      if truthyEnv (getenv env "PROXY_ENABLED" "false") = false then
        Except.ok (ProxyManager.make "brightdata" "" 0 "" "" "" true 10 false hex)
      else
        match pyIntOpt (getenv env "PROXY_PORT" "0"),
            pyIntOpt (getenv env "PROXY_STICKY_TTL" "10") with
        | some port, some ttl =>
            Except.ok (ProxyManager.make (getenv env "PROXY_PROVIDER" "brightdata")
              (getenv env "PROXY_HOST" "") port
              (getenv env "PROXY_USERNAME" "") (getenv env "PROXY_PASSWORD" "")
              (getenv env "PROXY_COUNTRY" "")
              (truthyEnv (getenv env "PROXY_STICKY" "true")) ttl true hex)
        | _, _ => Except.error PyError.valueError := rfl

theorem from_config_some_eq (cfg : Config) (env : Env) (hex : String) :
    ProxyManager.from_config (some cfg) env hex =
      if ((cfg.proxy.getD emptySection).enabled.getD false) = false then
        Except.ok (ProxyManager.make "brightdata" "" 0 "" "" "" true 10 false hex)
      else
        Except.ok (ProxyManager.make
          ((cfg.proxy.getD emptySection).provider.getD "brightdata")
          ((cfg.proxy.getD emptySection).host.getD "")
          ((cfg.proxy.getD emptySection).port.getD 0)
          (pyOrStr ((cfg.proxy.getD emptySection).username.getD "")
            (getenv env "PROXY_USERNAME" ""))
          (pyOrStr ((cfg.proxy.getD emptySection).password.getD "")
            (getenv env "PROXY_PASSWORD" ""))
          (pyOrStr ((cfg.proxy.getD emptySection).country.getD "")
            (getenv env "PROXY_COUNTRY" ""))
          ((cfg.proxy.getD emptySection).sticky.getD true)
          ((cfg.proxy.getD emptySection).sticky_ttl_minutes.getD 10) true hex) := rfl

theorem build_username_passthrough (pm : ProxyManager)
    (h : pm.provider = "stormproxies" ∨ PROVIDER_DEFAULTS pm.provider = none) :
    pm.build_proxy_username = pm.username := by
  unfold ProxyManager.build_proxy_username
  have h1 : pm.provider ≠ "brightdata" := by
    rcases h with h | h
    · rw [h]; decide
    · intro hb; rw [hb] at h; exact absurd h (by decide)
  have h2 : pm.provider ≠ "netnut" := by
    rcases h with h | h
    · rw [h]; decide
    · intro hb; rw [hb] at h; exact absurd h (by decide)
  have h3 : pm.provider ≠ "iproyal" := by
    rcases h with h | h
    · rw [h]; decide
    · intro hb; rw [hb] at h; exact absurd h (by decide)
  rw [if_neg h1, if_neg h2, if_neg h3]
  by_cases h4 : pm.provider = "stormproxies"
  · rw [if_pos h4]
  · rw [if_neg h4]

/-! ### The claims -/

/-- Claim C1, counterexample: with `PROXY_ENABLED="true"` and
`PROXY_PORT="abc"`, `from_env` raises `ValueError` (the
`int(os.getenv("PROXY_PORT", "0"))` call) instead of returning an
instance with the port degraded to its default, so construction does
not "never raise for malformed input". -/
theorem C1_counterexample :
    ProxyManager.from_env envBad hexW = Except.error PyError.valueError := by
  rfl

/-- Claim C1, amended: `from_env` returns an instance without raising for
every environment in which the strings consulted for `PROXY_PORT`
(default `"0"`) and `PROXY_STICKY_TTL` (default `"10"`) parse as base-10
integers — in particular absence of either variable yields the stated
defaults — and `from_config` likewise returns an instance on every
configuration document and on load failure; but a non-numeric value of
`PROXY_PORT` or `PROXY_STICKY_TTL` together with a truthy
`PROXY_ENABLED` makes `from_env` raise `ValueError`. -/
theorem C1_amended (env : Env) (hex : String)
    (hport : (pyIntOpt (getenv env "PROXY_PORT" "0")).isSome = true)
    (httl : (pyIntOpt (getenv env "PROXY_STICKY_TTL" "10")).isSome = true) :
    (∃ pm, ProxyManager.from_env env hex = Except.ok pm) ∧
    (∀ loaded : Option Config, ∃ pm,
      ProxyManager.from_config loaded env hex = Except.ok pm) := by
  have hmain : ∃ pm, ProxyManager.from_env env hex = Except.ok pm := by
    rw [from_env_eq]
    by_cases he : truthyEnv (getenv env "PROXY_ENABLED" "false") = false
    · rw [if_pos he]
      exact ⟨_, rfl⟩
    · rw [if_neg he]
      obtain ⟨p, hp⟩ := Option.isSome_iff_exists.mp hport
      obtain ⟨t, ht⟩ := Option.isSome_iff_exists.mp httl
      rw [hp, ht]
      exact ⟨_, rfl⟩
  refine ⟨hmain, ?_⟩
  intro loaded
  match loaded with
  | none => exact hmain
  | some cfg =>
    rw [from_config_some_eq]
    by_cases hcfg : ((cfg.proxy.getD emptySection).enabled.getD false) = false
    · rw [if_pos hcfg]
      exact ⟨_, rfl⟩
    · rw [if_neg hcfg]
      exact ⟨_, rfl⟩

/-- Witness for C1_amended at the empty environment. -/
theorem C1_witness :
    (∃ pm, ProxyManager.from_env envEmpty hexW = Except.ok pm) ∧
    (∀ loaded : Option Config, ∃ pm,
      ProxyManager.from_config loaded envEmpty hexW = Except.ok pm) :=
  C1_amended envEmpty hexW (by decide) (by decide)

/-- Claim C2: for providers `"brightdata"` and `"netnut"`,
`_build_proxy_username` returns the segments [raw username,
`country-<country>` if country is non-empty, `session-<sessionId>` if
sticky] joined with `"-"`, omitting unset segments entirely; for
`"iproyal"` it returns the same segment sequence plus, when sticky, an
additional `sessTime-<stickyTtlMinutes>` segment, all joined with
`"_"`. -/
theorem C2_username_format (pm : ProxyManager) :
    ((pm.provider = "brightdata" ∨ pm.provider = "netnut") →
      pm.build_proxy_username =
        pm.username
          ++ (if pm.country = "" then "" else "-country-" ++ pm.country)
          ++ (if pm.sticky then "-session-" ++ pm.session_id else "")) ∧
    (pm.provider = "iproyal" →
      pm.build_proxy_username =
        pm.username
          ++ (if pm.country = "" then "" else "_country-" ++ pm.country)
          ++ (if pm.sticky then
                "_session-" ++ pm.session_id ++ "_sessTime-"
                  ++ toString pm.sticky_ttl_minutes
              else "")) :=
  ⟨build_username_dash pm, build_username_iproyal pm⟩

/-- Witness for C2_username_format at a concrete brightdata instance. -/
theorem C2_witness :
    pmBrightW.build_proxy_username =
      pmBrightW.username
        ++ (if pmBrightW.country = "" then "" else "-country-" ++ pmBrightW.country)
        ++ (if pmBrightW.sticky then "-session-" ++ pmBrightW.session_id else "") :=
  (C2_username_format pmBrightW).1 (Or.inl (by decide))

/-- Claim C3: when loading the configuration source fails (modelled by
`loaded = none`), `from_config` produces the same instance state as the
environment-based construction `from_env` on the same environment (and
the same drawn randomness). -/
theorem C3_load_failure_fallback (env : Env) (hex : String) :
    ProxyManager.from_config none env hex = ProxyManager.from_env env hex := rfl

/-- Claim C4: a disabled instance, or an enabled one with empty host,
yields the absence value from both `get_playwright_proxy` and
`get_requests_proxy`, regardless of all other fields. -/
theorem C4_absence (pm : ProxyManager)
    (h : pm.enabled = false ∨ pm.host = "") :
    pm.get_playwright_proxy = none ∧ pm.get_requests_proxy = none := by
  have h2 : ¬pm.enabled ∨ pm.host = "" := by
    rcases h with h | h
    · exact Or.inl (by simp [h])
    · exact Or.inr h
  constructor
  · unfold ProxyManager.get_playwright_proxy
    rw [if_pos h2]
  · unfold ProxyManager.get_requests_proxy
    rw [if_pos h2]

/-- Witness for C4_absence at a disabled instance that still has a host,
port and credentials. -/
theorem C4_witness :
    pmDisabledW.get_playwright_proxy = none ∧
    pmDisabledW.get_requests_proxy = none :=
  C4_absence pmDisabledW (Or.inl rfl)

/-- Claim C5: with no explicit host/port, the four known providers
resolve host and port exactly to the static table entries, any other
provider resolves to empty host and port 0, and an explicitly supplied
non-empty host or non-zero port always takes precedence over the
table. -/
theorem C5_default_resolution (provider host : String) (port : Int)
    (username password country : String) (sticky : Bool) (ttl : Int)
    (enabled : Bool) (hex : String) (pm : ProxyManager)
    (hpm : pm = ProxyManager.make provider host port username password country
      sticky ttl enabled hex) :
    (host = "" → port = 0 →
      ((pm.provider = "brightdata" →
          pm.host = "brd.superproxy.io" ∧ pm.port = 22225) ∧
       (pm.provider = "iproyal" →
          pm.host = "proxy.iproyal.com" ∧ pm.port = 12321) ∧
       (pm.provider = "stormproxies" →
          pm.host = "rotating.stormproxies.com" ∧ pm.port = 9999) ∧
       (pm.provider = "netnut" →
          pm.host = "gw-resi.netnut.io" ∧ pm.port = 5959) ∧
       (PROVIDER_DEFAULTS pm.provider = none →
          pm.host = "" ∧ pm.port = 0))) ∧
    (host ≠ "" → pm.host = host) ∧
    (port ≠ 0 → pm.port = port) := by
  subst hpm
  rw [make_host_eq, make_port_eq, make_provider_eq]
  refine ⟨?_, ?_, ?_⟩
  · intro hh hp
    rw [if_pos hh, if_pos hp]
    refine ⟨?_, ?_, ?_, ?_, ?_⟩ <;> intro hpr <;> rw [hpr] <;>
      exact ⟨rfl, rfl⟩
  · intro hh
    rw [if_neg hh]
  · intro hp
    rw [if_neg hp]

/-- Witness for C5_default_resolution: netnut with no explicit host/port
resolves to the table entry. -/
theorem C5_witness :
    (ProxyManager.make "netnut" "" 0 "" "" "" true 10 true hexW).host
        = "gw-resi.netnut.io" ∧
    (ProxyManager.make "netnut" "" 0 "" "" "" true 10 true hexW).port = 5959 :=
  ((C5_default_resolution "netnut" "" 0 "" "" "" true 10 true hexW
    (ProxyManager.make "netnut" "" 0 "" "" "" true 10 true hexW) rfl).1
    rfl rfl).2.2.2.1 (by decide)

/-- Claim C6: for provider `"stormproxies"` or any string outside the
four known providers, `_build_proxy_username` returns the raw username
unchanged, for all values of country, sticky and TTL. -/
theorem C6_passthrough (pm : ProxyManager)
    (h : pm.provider = "stormproxies" ∨ PROVIDER_DEFAULTS pm.provider = none) :
    pm.build_proxy_username = pm.username :=
  build_username_passthrough pm h

/-- Witness for C6_passthrough at a stormproxies instance with country
and sticky settings. -/
theorem C6_witness : pmStormW.build_proxy_username = pmStormW.username :=
  C6_passthrough pmStormW (Or.inl (by decide))

/-- Claim C7: an enabled instance with non-empty host yields from
`get_requests_proxy` a mapping whose `"http"` and `"https"` entries are
the identical string `http://<user>:<password>@<host>:<port>`, with
`<user>` the result of `_build_proxy_username`. -/
theorem C7_requests_urls (pm : ProxyManager) (hen : pm.enabled = true)
    (hh : pm.host ≠ "") :
    pm.get_requests_proxy = some
      { http := "http://" ++ pm.build_proxy_username ++ ":" ++ pm.password
          ++ "@" ++ pm.host ++ ":" ++ toString pm.port
        https := "http://" ++ pm.build_proxy_username ++ ":" ++ pm.password
          ++ "@" ++ pm.host ++ ":" ++ toString pm.port } := by
  have hcond : ¬(¬pm.enabled ∨ pm.host = "") := by
    rintro (h | h)
    · exact h hen
    · exact hh h
  unfold ProxyManager.get_requests_proxy
  rw [if_neg hcond]

/-- Witness for C7_requests_urls at a concrete brightdata instance. -/
theorem C7_witness :
    pmBrightW.get_requests_proxy = some
      { http := "http://" ++ pmBrightW.build_proxy_username ++ ":"
          ++ pmBrightW.password ++ "@" ++ pmBrightW.host ++ ":"
          ++ toString pmBrightW.port
        https := "http://" ++ pmBrightW.build_proxy_username ++ ":"
          ++ pmBrightW.password ++ "@" ++ pmBrightW.host ++ ":"
          ++ toString pmBrightW.port } :=
  C7_requests_urls pmBrightW rfl (by decide)

/-- Claim C8: `rotate_session` replaces `session_id` with a fresh
12-character token and returns that token, mutating no other field; the
new token is the one embedded by subsequent `_build_proxy_username`
calls (it occurs in the built username whenever the provider formats
sessions and sticky is set). -/
theorem C8_rotation (pm : ProxyManager) (hex : String)
    (hlen : hex.length = 32) :
    let r := pm.rotate_session hex
    r.2 = generate_session_id hex ∧
    r.1.session_id = r.2 ∧
    r.2.length = 12 ∧
    r.1.provider = pm.provider ∧
    r.1.host = pm.host ∧
    r.1.port = pm.port ∧
    r.1.username = pm.username ∧
    r.1.password = pm.password ∧
    r.1.country = pm.country ∧
    r.1.sticky = pm.sticky ∧
    r.1.sticky_ttl_minutes = pm.sticky_ttl_minutes ∧
    r.1.enabled = pm.enabled ∧
    (pm.sticky = true →
      (pm.provider = "brightdata" ∨ pm.provider = "netnut" ∨
        pm.provider = "iproyal") →
      ∃ a b : String, r.1.build_proxy_username = a ++ (r.2 ++ b)) := by
  intro r
  refine ⟨rfl, rfl, length_generate_session_id hex hlen, rfl, rfl, rfl, rfl,
    rfl, rfl, rfl, rfl, rfl, ?_⟩
  intro hst hpr
  have hsx : r.1.sticky = true := hst
  have hsid : r.1.session_id = r.2 := rfl
  rcases hpr with h | h | h
  · have hb := build_username_dash r.1 (Or.inl h)
    by_cases hc : r.1.country = ""
    · refine ⟨r.1.username ++ "-session-", "", ?_⟩
      rw [hb, if_pos hc, if_pos hsx, hsid]
      apply String.ext
      simp [String.data_append, List.append_assoc]
    · refine ⟨r.1.username ++ ("-country-" ++ r.1.country) ++ "-session-", "", ?_⟩
      rw [hb, if_neg hc, if_pos hsx, hsid]
      apply String.ext
      simp [String.data_append, List.append_assoc]
  · have hb := build_username_dash r.1 (Or.inr h)
    by_cases hc : r.1.country = ""
    · refine ⟨r.1.username ++ "-session-", "", ?_⟩
      rw [hb, if_pos hc, if_pos hsx, hsid]
      apply String.ext
      simp [String.data_append, List.append_assoc]
    · refine ⟨r.1.username ++ ("-country-" ++ r.1.country) ++ "-session-", "", ?_⟩
      rw [hb, if_neg hc, if_pos hsx, hsid]
      apply String.ext
      simp [String.data_append, List.append_assoc]
  · have hb := build_username_iproyal r.1 h
    by_cases hc : r.1.country = ""
    · refine ⟨r.1.username ++ "_session-",
        "_sessTime-" ++ toString r.1.sticky_ttl_minutes, ?_⟩
      rw [hb, if_pos hc, if_pos hsx, hsid]
      apply String.ext
      simp [String.data_append, List.append_assoc]
    · refine ⟨r.1.username ++ ("_country-" ++ r.1.country) ++ "_session-",
        "_sessTime-" ++ toString r.1.sticky_ttl_minutes, ?_⟩
      rw [hb, if_neg hc, if_pos hsx, hsid]
      apply String.ext
      simp [String.data_append, List.append_assoc]

/-- Witness for C8_rotation: a concrete brightdata instance rotated with
a fresh concrete uuid hex. -/
theorem C8_witness :
    let r := pmBrightW.rotate_session hexW2
    r.2 = generate_session_id hexW2 ∧
    r.1.session_id = r.2 ∧
    r.2.length = 12 ∧
    r.1.provider = pmBrightW.provider ∧
    r.1.host = pmBrightW.host ∧
    r.1.port = pmBrightW.port ∧
    r.1.username = pmBrightW.username ∧
    r.1.password = pmBrightW.password ∧
    r.1.country = pmBrightW.country ∧
    r.1.sticky = pmBrightW.sticky ∧
    r.1.sticky_ttl_minutes = pmBrightW.sticky_ttl_minutes ∧
    r.1.enabled = pmBrightW.enabled ∧
    (pmBrightW.sticky = true →
      (pmBrightW.provider = "brightdata" ∨ pmBrightW.provider = "netnut" ∨
        pmBrightW.provider = "iproyal") →
      ∃ a b : String, r.1.build_proxy_username = a ++ (r.2 ++ b)) :=
  C8_rotation pmBrightW hexW2 (by decide)

/-- Claim C9: however constructed and after any sequence of rotations,
`session_id` is non-empty, `provider` and `country` are lower-case with
no leading or trailing whitespace, and host/port are empty/zero only
when disabled or when an unrecognized provider received no explicit
host/port. -/
theorem C9_invariants (provider host : String) (port : Int)
    (username password country : String) (sticky : Bool) (ttl : Int)
    (enabled : Bool) (hex0 : String) (hexes : List String)
    (pm : ProxyManager)
    (h0 : hex0.length = 32)
    (hall : ∀ h ∈ hexes, String.length h = 32)
    (hpm : pm = apply_rotations (ProxyManager.make provider host port
      username password country sticky ttl enabled hex0) hexes) :
    pm.session_id ≠ "" ∧
    pyLower pm.provider = pm.provider ∧
    pyStrip pm.provider = pm.provider ∧
    pyLower pm.country = pm.country ∧
    pyStrip pm.country = pm.country ∧
    (pm.host = "" →
      enabled = false ∨ (PROVIDER_DEFAULTS pm.provider = none ∧ host = "")) ∧
    (pm.port = 0 →
      enabled = false ∨ (PROVIDER_DEFAULTS pm.provider = none ∧ port = 0)) := by
  subst hpm
  obtain ⟨hprov, hhost, hport, -, -, hcty, -, -, -⟩ :=
    apply_rotations_frame (ProxyManager.make provider host port username
      password country sticky ttl enabled hex0) hexes
  rw [make_provider_eq] at hprov
  rw [make_country_eq] at hcty
  rw [make_host_eq] at hhost
  rw [make_port_eq] at hport
  have hsess := apply_rotations_session hexes
    (ProxyManager.make provider host port username password country sticky
      ttl enabled hex0) hall (length_generate_session_id hex0 h0)
  refine ⟨?_, ?_, ?_, ?_, ?_, ?_, ?_⟩
  · intro hemp
    rw [hemp] at hsess
    exact absurd hsess (by decide)
  · rw [hprov]
    exact pyLower_norm provider
  · rw [hprov]
    exact pyStrip_norm provider
  · rw [hcty]
    exact pyLower_norm country
  · rw [hcty]
    exact pyStrip_norm country
  · intro hh
    rw [hhost] at hh
    right
    rw [hprov]
    by_cases hhe : host = ""
    · rw [if_pos hhe] at hh
      exact ⟨PROVIDER_DEFAULTS_host_ne _ hh, hhe⟩
    · rw [if_neg hhe] at hh
      exact absurd hh hhe
  · intro hp
    rw [hport] at hp
    right
    rw [hprov]
    by_cases hpe : port = 0
    · rw [if_pos hpe] at hp
      exact ⟨PROVIDER_DEFAULTS_port_ne _ hp, hpe⟩
    · rw [if_neg hpe] at hp
      exact absurd hp hpe

/-- Witness for C9_invariants at a rotated netnut instance built from
un-normalized country input. -/
theorem C9_witness :
    pmRotW.session_id ≠ "" ∧
    pyLower pmRotW.provider = pmRotW.provider ∧
    pyStrip pmRotW.provider = pmRotW.provider ∧
    pyLower pmRotW.country = pmRotW.country ∧
    pyStrip pmRotW.country = pmRotW.country ∧
    (pmRotW.host = "" →
      true = false ∨ (PROVIDER_DEFAULTS pmRotW.provider = none ∧ "" = "")) ∧
    (pmRotW.port = 0 →
      true = false ∨ (PROVIDER_DEFAULTS pmRotW.provider = none ∧ (0 : Int) = 0)) :=
  C9_invariants "netnut" "" 0 "u" "p" " DE " true 10 true hexW [hexW2]
    pmRotW (by decide) (by decide) rfl

/-- Claim C10: the disabled instances produced by the factory paths are
built with the default provider `"brightdata"`, hence carry the
non-empty default host `brd.superproxy.io` and port 22225; disabled does
not imply empty host, and it is the enabled flag that makes both output
methods return absence. -/
theorem C10_disabled_carries_defaults (env : Env) (hex : String) :
    let pm := ProxyManager.make "brightdata" "" 0 "" "" "" true 10 false hex
    (truthyEnv (getenv env "PROXY_ENABLED" "false") = false →
      ProxyManager.from_env env hex = Except.ok pm) ∧
    (∀ cfg : Config,
      ((cfg.proxy.getD emptySection).enabled.getD false) = false →
      ProxyManager.from_config (some cfg) env hex = Except.ok pm) ∧
    pm.enabled = false ∧
    pm.provider = "brightdata" ∧
    pm.host = "brd.superproxy.io" ∧
    pm.port = 22225 ∧
    pm.get_playwright_proxy = none ∧
    pm.get_requests_proxy = none := by
  intro pm
  have hen : pm.enabled = false := rfl
  have hprovx : pm.provider = "brightdata" := by
    show pyStrip (pyLower "brightdata") = "brightdata"
    decide
  have hhostx : pm.host = "brd.superproxy.io" := by
    show (if ("" : String) = "" then
        ((PROVIDER_DEFAULTS (pyStrip (pyLower "brightdata"))).map Prod.fst).getD ""
      else "") = "brd.superproxy.io"
    decide
  have hportx : pm.port = 22225 := by
    show (if (0 : Int) = 0 then
        ((PROVIDER_DEFAULTS (pyStrip (pyLower "brightdata"))).map Prod.snd).getD 0
      else 0) = 22225
    decide
  have hne : ¬pm.enabled := by
    show ¬(false = true)
    decide
  refine ⟨?_, ?_, hen, hprovx, hhostx, hportx, ?_, ?_⟩
  · intro h
    rw [from_env_eq, if_pos h]
  · intro cfg h
    rw [from_config_some_eq, if_pos h]
  · unfold ProxyManager.get_playwright_proxy
    rw [if_pos (Or.inl hne)]
  · unfold ProxyManager.get_requests_proxy
    rw [if_pos (Or.inl hne)]

/-- Witness for C10_disabled_carries_defaults at the empty environment
and a config with `proxy.enabled = false`. -/
theorem C10_witness :
    ProxyManager.from_env envEmpty hexW =
      Except.ok (ProxyManager.make "brightdata" "" 0 "" "" "" true 10 false hexW) ∧
    ProxyManager.from_config (some cfgOffW) envEmpty hexW =
      Except.ok (ProxyManager.make "brightdata" "" 0 "" "" "" true 10 false hexW) := by
  have h := C10_disabled_carries_defaults envEmpty hexW
  exact ⟨h.1 (by decide), h.2.1 cfgOffW (by decide)⟩

end ProxySpec
